import Mathlib

/-!
Shallow embedding of `src/training.rs` of AngKS/my_first_rust_DL_app, a Burn-based
MNIST training orchestration layer, together with theorems settling the frozen
claims about it.

The repository code under `src/` is the single file `src/training.rs`.  The model
(`src/model.rs`), the batcher (`src/data.rs`) and the Burn library (tensors,
autodiff, cross-entropy, Config derive, Learner) are external to `src/`; where a
claim needs them they are modelled from the spec, each such definition saying so
in its doc comment.  Tensors are kept abstract (type parameters) for the
structural claims and instantiated with nested lists of integers where a claim
needs a concrete batch; machine floats (the `f64` learning rate) are modelled as
rationals.  Straight-line effects of the Rust code (which external operations a
function invokes, and in which order) are carried as an explicit event trace.
-/

namespace BurnTrain

/-- Embedding of burn's `ClassificationOutput` as used by `training.rs`:
the loss, the raw model output (logits), and the targets. -/
structure ClassificationOutput (L T2 T1 : Type) where
  loss : L
  output : T2
  targets : T1
deriving DecidableEq

/-- Modelled from the spec: the batch type of `src/data.rs` (not under `src/`);
spec section 3: a pair of a rank-3 image tensor and a rank-1 integer target
tensor. -/
structure MnistBatch (T3 T1 : Type) where
  images : T3
  targets : T1

/-- Modelled from the spec: the model collaborator of `src/model.rs` (not under
`src/`); spec section 6: it exposes a forward pass from inputs to logits. -/
structure Model (T3 T2 : Type) where
  forward : T3 → T2

/-- Modelled from the spec: the operations of the external numeric/autodiff
collaborator (the Burn library) that `training.rs` invokes.
`crossEntropyForward` is `CrossEntropyLossConfig::new().init(device).forward`,
a pure function of logits and targets (the loss object holds no mutable state);
`backward` is reverse-mode differentiation of a loss (`loss.backward()`),
returning a fresh gradient value. -/
structure BackendOps (T2 T1 L G : Type) where
  crossEntropyForward : T2 → T1 → L
  backward : L → G

/-- The external operations a step of `training.rs` can invoke, recorded as a
trace.  `lossInit` is the construction `CrossEntropyLossConfig::new().init`,
`lossForward` its `.forward` call, `backwardCall` is `loss.backward()`, and
`paramAccumulate` stands for an in-place gradient accumulation onto the model
parameters (which the Rust code never performs: the source comment notes that
gradients are returned by the backward pass, not stored alongside parameters). -/
inductive Ev
  | modelForward
  | lossInit
  | lossForward
  | backwardCall
  | paramAccumulate
deriving DecidableEq

/-- Embedding of `Model::forward_classification` (`src/training.rs` lines 18-41):
runs the model forward pass, builds a fresh cross-entropy loss and applies it to
the logits and targets, and returns the `ClassificationOutput` of that loss,
those logits and those targets.  The second component is the trace of external
operations invoked, in order. -/
def Model.forward_classification {T3 T2 T1 L G : Type}
    (ops : BackendOps T2 T1 L G) (m : Model T3 T2) (images : T3) (targets : T1) :
    ClassificationOutput L T2 T1 × List Ev :=
  let output := m.forward images
  let loss := ops.crossEntropyForward output targets
  ({ loss := loss, output := output, targets := targets },
   [Ev.modelForward, Ev.lossInit, Ev.lossForward])

/-- Embedding of burn's `TrainOutput`: the gradients paired with the item. -/
structure TrainOutput (G I : Type) where
  grads : G
  item : I
deriving DecidableEq

/-- Embedding of `TrainStep::step` (`src/training.rs` lines 46-58): calls
`forward_classification` on the batch, then `item.loss.backward()`, and returns
`TrainOutput::new(self, gradients, item)`.  The receiver is `&self` in Rust, so
the model state after the call is the model state before it; the middle
component returns that (unchanged) state explicitly, and the last component is
the trace of external operations invoked. -/
def trainStep {T3 T2 T1 L G : Type}
    (ops : BackendOps T2 T1 L G) (m : Model T3 T2) (batch : MnistBatch T3 T1) :
    TrainOutput G (ClassificationOutput L T2 T1) × Model T3 T2 × List Ev :=
  let (item, tr) := m.forward_classification ops batch.images batch.targets
  ({ grads := ops.backward item.loss, item := item }, m, tr ++ [Ev.backwardCall])

/-- Embedding of `ValidStep::step` (`src/training.rs` lines 60-64): calls
`forward_classification` on the batch and returns its output.  As in
`trainStep`, the `&self` receiver is returned explicitly as the (unchanged)
model state, together with the trace of external operations invoked. -/
def validStep {T3 T2 T1 L G : Type}
    (ops : BackendOps T2 T1 L G) (m : Model T3 T2) (batch : MnistBatch T3 T1) :
    ClassificationOutput L T2 T1 × Model T3 T2 × List Ev :=
  let (item, tr) := m.forward_classification ops batch.images batch.targets
  (item, m, tr)

/-- `n` successive invocations of `ValidStep::step` on the same batch, each one
receiving the model state the previous invocation left behind; returns the final
model state and the list of outputs produced. -/
def validIter {T3 T2 T1 L G : Type}
    (ops : BackendOps T2 T1 L G) (m : Model T3 T2) (batch : MnistBatch T3 T1) :
    Nat → Model T3 T2 × List (ClassificationOutput L T2 T1)
  | 0 => (m, [])
  | n + 1 =>
    let prev := validIter ops m batch n
    let r := validStep ops prev.1 batch
    (r.2.1, prev.2 ++ [r.1])

/-- Concrete rank-3 tensor: a batch of 2D integer images; the first list level
is the batch dimension. -/
abbrev Tensor3c := List (List (List Int))

/-- Concrete rank-2 tensor: per-sample logits; the first list level is the
batch dimension. -/
abbrev Tensor2c := List (List Int)

/-- Concrete rank-1 integer tensor: the targets. -/
abbrev Tensor1c := List Int

/-- A concrete backend for evaluating the steps on explicit batches: the
cross-entropy returns an integer loss and `backward` an uninformative gradient
value. -/
def ops0 : BackendOps Tensor2c Tensor1c Int Unit :=
  { crossEntropyForward := fun _ _ => 0, backward := fun _ => () }

/-- A concrete model over the concrete tensors. -/
def model0 : Model Tensor3c Tensor2c :=
  { forward := fun _ => [] }

/-- Errors of the modelled filesystem: the removal "not found" case is
distinguished because the spec singles it out; every other failure is `ioError`. -/
inductive FsError
  | notFound
  | ioError
deriving DecidableEq

/-- A small filesystem: the existing directories with their contents (an
association list from path to file names), plus a fault script saying whether
the next removal / creation call fails with an I/O error. -/
structure Fs where
  dirs : List (String × List String)
  removeFault : Bool
  createFault : Bool
deriving DecidableEq

/-- Modelled from the spec and std semantics: `std::fs::remove_dir_all` —
recursively removes the directory; fails with `notFound` when it does not
exist, or with an injected I/O error. -/
def remove_dir_all (d : String) (fs : Fs) : Except FsError Unit × Fs :=
  if fs.removeFault then (Except.error FsError.ioError, fs)
  else if (fs.dirs.lookup d).isSome then
    (Except.ok (), { fs with dirs := fs.dirs.filter (fun p => !(p.1 == d)) })
  else (Except.error FsError.notFound, fs)

/-- Modelled from the spec and std semantics: `std::fs::create_dir_all` —
creates the directory (empty) if missing, succeeds without touching it if it
already exists, or fails with an injected I/O error. -/
def create_dir_all (d : String) (fs : Fs) : Except FsError Unit × Fs :=
  if fs.createFault then (Except.error FsError.ioError, fs)
  else if (fs.dirs.lookup d).isSome then (Except.ok (), fs)
  else (Except.ok (), { fs with dirs := (d, []) :: fs.dirs })

/-- Embedding of `create_artifact_dir` (`src/training.rs` lines 85-89): calls
`remove_dir_all(dir).ok()` then `create_dir_all(dir).ok()` — both results are
discarded by `.ok()`, so the function returns plainly (the Rust return type is
`()`): no error of either call can surface to the caller. -/
def create_artifact_dir (d : String) (fs : Fs) : Fs :=
  let (_removed, fs1) := remove_dir_all d fs
  let (_created, fs2) := create_dir_all d fs1
  fs2

/-- Written from the spec words, for comparison with `create_artifact_dir`
(spec sections 4.4 and 7): deletes the directory recursively, ignoring only the
removal "not found" error; any other removal failure, and any creation failure,
surfaces to the caller. -/
def create_artifact_dir_specModel (d : String) (fs : Fs) : Except FsError Fs :=
  let (removed, fs1) := remove_dir_all d fs
  match removed with
  | Except.error FsError.notFound =>
    let (created, fs2) := create_dir_all d fs1
    match created with
    | Except.ok () => Except.ok fs2
    | Except.error e => Except.error e
  | Except.error e => Except.error e
  | Except.ok () =>
    let (created, fs2) := create_dir_all d fs1
    match created with
    | Except.ok () => Except.ok fs2
    | Except.error e => Except.error e

/-- Embedding of `TrainingConfig` (`src/training.rs` lines 69-83), parametric in
the model and optimizer sub-configuration types (`ModelConfig` of `src/model.rs`
and burn's `AdamConfig` are external to `src/`).  The `u64` seed is a natural
number and the `f64` learning rate a rational. -/
structure TrainingConfig (M O : Type) where
  model : M
  optimizer : O
  num_epochs : Nat
  batch_size : Nat
  num_workers : Nat
  seed : Nat
  learning_rate : Rat
deriving DecidableEq

/-- The constructor the `#[derive(Config)]` attribute generates from
`src/training.rs` lines 69-83: the model and optimizer sub-configurations are
required arguments (they carry no `#[config(default = ...)]` attribute), the
remaining fields take the annotated defaults. -/
def TrainingConfig.new {M O : Type} (model : M) (optimizer : O) :
    TrainingConfig M O :=
  { model := model, optimizer := optimizer, num_epochs := 5, batch_size := 64,
    num_workers := 4, seed := 42, learning_rate := 1 / 10000 }

/-- A value of the structured key-value configuration document. -/
inductive CVal (M O : Type)
  | nat (v : Nat)
  | rat (v : Rat)
  | modelCfg (v : M)
  | optimizerCfg (v : O)
deriving DecidableEq

/-- Modelled from the spec: the serialization `config.save` that the burn
`Config` derive provides (external to `src/`); spec section 6: a structured
key-value document with self-describing field names. -/
def TrainingConfig.save {M O : Type} (c : TrainingConfig M O) :
    List (String × CVal M O) :=
  [("model", CVal.modelCfg c.model),
   ("optimizer", CVal.optimizerCfg c.optimizer),
   ("num_epochs", CVal.nat c.num_epochs),
   ("batch_size", CVal.nat c.batch_size),
   ("num_workers", CVal.nat c.num_workers),
   ("seed", CVal.nat c.seed),
   ("learning_rate", CVal.rat c.learning_rate)]

/-- Modelled from the spec: the corresponding `Config::load`, reading each field
back from the key-value document by key lookup. -/
def TrainingConfig.load {M O : Type} (doc : List (String × CVal M O)) :
    Option (TrainingConfig M O) :=
  match doc.lookup "model", doc.lookup "optimizer", doc.lookup "num_epochs",
      doc.lookup "batch_size", doc.lookup "num_workers", doc.lookup "seed",
      doc.lookup "learning_rate" with
  | some (CVal.modelCfg m), some (CVal.optimizerCfg o), some (CVal.nat e),
      some (CVal.nat b), some (CVal.nat w), some (CVal.nat s), some (CVal.rat lr) =>
    some { model := m, optimizer := o, num_epochs := e, batch_size := b,
           num_workers := w, seed := s, learning_rate := lr }
  | _, _, _, _, _, _, _ => none

/-- The path `config.save` writes to in `train` (`src/training.rs` line 95). -/
def configPath (artifact_dir : String) : String :=
  artifact_dir ++ "/config.json"

/-- The two MNIST dataset splits (`MnistDataset::train()` / `::test()`). -/
inductive Dataset
  | train
  | test
deriving DecidableEq

/-- State of burn's `DataLoaderBuilder` as far as `training.rs` configures it:
the batch size, the shuffle seed (`none` when shuffling is not requested), and
the worker count.  The batcher passed to `new` is opaque to the claims. -/
structure DataLoaderBuilder where
  batch_size : Option Nat := none
  shuffle_seed : Option Nat := none
  num_workers : Option Nat := none
deriving DecidableEq

/-- `DataLoaderBuilder::new(batcher)`: all options unset. -/
def DataLoaderBuilder.new : DataLoaderBuilder := {}

/-- The builder method `.batch_size(n)`. -/
def DataLoaderBuilder.batchSize (b : DataLoaderBuilder) (n : Nat) :
    DataLoaderBuilder :=
  { b with batch_size := some n }

/-- The builder method `.shuffle(seed)`. -/
def DataLoaderBuilder.shuffle (b : DataLoaderBuilder) (s : Nat) :
    DataLoaderBuilder :=
  { b with shuffle_seed := some s }

/-- The builder method `.num_workers(n)`. -/
def DataLoaderBuilder.numWorkers (b : DataLoaderBuilder) (n : Nat) :
    DataLoaderBuilder :=
  { b with num_workers := some n }

/-- A built data loader: the dataset split it wraps plus the builder options. -/
structure DataLoader where
  dataset : Dataset
  batch_size : Option Nat
  shuffle_seed : Option Nat
  num_workers : Option Nat
deriving DecidableEq

/-- The builder method `.build(dataset)`. -/
def DataLoaderBuilder.build (b : DataLoaderBuilder) (d : Dataset) : DataLoader :=
  { dataset := d, batch_size := b.batch_size, shuffle_seed := b.shuffle_seed,
    num_workers := b.num_workers }

/-- Embedding of the `dataLoader_train` construction in `train`
(`src/training.rs` lines 105-109). -/
def dataLoader_train {M O : Type} (config : TrainingConfig M O) : DataLoader :=
  ((((DataLoaderBuilder.new).batchSize config.batch_size).shuffle
      config.seed).numWorkers config.num_workers).build Dataset.train

/-- Embedding of the `dataLoader_test` construction in `train`
(`src/training.rs` lines 111-115). -/
def dataLoader_test {M O : Type} (config : TrainingConfig M O) : DataLoader :=
  ((((DataLoaderBuilder.new).batchSize config.batch_size).shuffle
      config.seed).numWorkers config.num_workers).build Dataset.test

/-- The observable actions of the `train` entry point, in the order the
straight-line Rust code performs them. -/
inductive TrainEv
  | prepareDir (dir : String)
  | saveConfig (path : String)
  | seedRng (seed : Nat)
  | newBatcher
  | buildLoader (split : Dataset)
  | initModel
  | initOptimizer
  | fit
  | saveModel (path : String)
deriving DecidableEq

/-- The action trace of `train` (`src/training.rs` lines 91-138), one event per
statement in source order: `create_artifact_dir` (line 93), `config.save`
(line 95), `B::seed(config.seed)` (line 98), the two batchers (lines 100-101),
the two loader builds (lines 105-115), `config.model.init` and
`config.optimizer.init` inside the learner build (lines 127-128), `learner.fit`
(line 132) and the final `save_file` (line 134). -/
def trainTrace {M O : Type} (artifact_dir : String) (config : TrainingConfig M O) :
    List TrainEv :=
  [TrainEv.prepareDir artifact_dir,
   TrainEv.saveConfig (configPath artifact_dir),
   TrainEv.seedRng config.seed,
   TrainEv.newBatcher, TrainEv.newBatcher,
   TrainEv.buildLoader Dataset.train,
   TrainEv.buildLoader Dataset.test,
   TrainEv.initModel, TrainEv.initOptimizer,
   TrainEv.fit,
   TrainEv.saveModel (artifact_dir ++ "/model")]

/-- Is the event the seeding of the global random generator? -/
def isSeedEv : TrainEv → Bool
  | TrainEv.seedRng _ => true
  | _ => false

/-- Is the event one of the stochastic setup operations the claim about seeding
names: constructing a (shuffling) data loader or initializing the model
parameters? -/
def isStochasticSetupEv : TrainEv → Bool
  | TrainEv.buildLoader _ => true
  | TrainEv.initModel => true
  | _ => false

/-- A filesystem on which the artifact directory exists (holding one file) and
the next directory removal fails with an I/O error that is not "not found". -/
def fsRemoveFails : Fs :=
  { dirs := [("artifacts", ["model"])], removeFault := true, createFault := false }

/-- Claim C1: for every model state and batch, `TrainStep::step` first invokes
the classification evaluator on the batch images and targets, then computes the
gradients of the returned loss by reverse-mode differentiation (`backward`),
and returns those gradients as a fresh value paired with the
`ClassificationOutput`; the model state is returned unchanged and the trace
holds no parameter accumulation. -/
theorem c1_trainStep_evaluator_then_fresh_grads {T3 T2 T1 L G : Type}
    (ops : BackendOps T2 T1 L G) (m : Model T3 T2) (batch : MnistBatch T3 T1) :
    (trainStep ops m batch).1.item =
      (m.forward_classification ops batch.images batch.targets).1 ∧
    (trainStep ops m batch).1.grads =
      ops.backward (trainStep ops m batch).1.item.loss ∧
    (trainStep ops m batch).2.1 = m ∧
    (trainStep ops m batch).2.2 =
      (m.forward_classification ops batch.images batch.targets).2 ++
        [Ev.backwardCall] ∧
    Ev.paramAccumulate ∉ (trainStep ops m batch).2.2 :=
  ⟨rfl, rfl, rfl, rfl, by simp [trainStep, Model.forward_classification]⟩

/-- Claim C2: for every model, input batch and target vector,
`forward_classification` runs the model forward pass to produce the logits,
computes a cross-entropy loss of exactly those logits and those targets with a
loss function constructed within the call (exactly one `lossInit` event per
invocation, and the loss is a pure function of this call's arguments), and
returns a `ClassificationOutput` holding exactly that loss, those logits and
those targets. -/
theorem c2_forward_classification_fresh_loss {T3 T2 T1 L G : Type}
    (ops : BackendOps T2 T1 L G) (m : Model T3 T2) (images : T3) (targets : T1) :
    (m.forward_classification ops images targets).1.output = m.forward images ∧
    (m.forward_classification ops images targets).1.loss =
      ops.crossEntropyForward (m.forward images) targets ∧
    (m.forward_classification ops images targets).1.targets = targets ∧
    (m.forward_classification ops images targets).2.count Ev.lossInit = 1 :=
  ⟨rfl, rfl, rfl, rfl⟩

/-- Claim C3: invoking `ValidStep::step` any number of times on the same model
state leaves the model state unchanged and produces the identical
`ClassificationOutput` on every invocation; its trace holds no gradient
computation (`backwardCall`). -/
theorem c3_validStep_readonly_deterministic {T3 T2 T1 L G : Type}
    (ops : BackendOps T2 T1 L G) (m : Model T3 T2) (batch : MnistBatch T3 T1)
    (n : Nat) :
    (validIter ops m batch n).1 = m ∧
    (validIter ops m batch n).2 = List.replicate n (validStep ops m batch).1 ∧
    Ev.backwardCall ∉ (validStep ops m batch).2.2 := by
  have key : ∀ k, (validIter ops m batch k).1 = m ∧
      (validIter ops m batch k).2 = List.replicate k (validStep ops m batch).1 := by
    intro k
    induction k with
    | zero => exact ⟨rfl, rfl⟩
    | succ j ih =>
      obtain ⟨h1, h2⟩ := ih
      refine ⟨?_, ?_⟩
      · simp [validIter, h1, validStep]
      · simp [validIter, h1, h2, List.replicate_succ']
  exact ⟨(key n).1, (key n).2, by simp [validStep, Model.forward_classification]⟩

/-- Claim C4, counterexample: on the concrete batch whose first (batch)
dimension is zero, both steps return a `ClassificationOutput` (the embedding of
the code is total and defines no `EmptyBatch` error), contradicting the claim
that they fail with `EmptyBatch` rather than returning one. -/
theorem c4_empty_batch_counterexample :
    List.length ([] : Tensor3c) = 0 ∧
    (validStep ops0 model0 { images := [], targets := [] }).1 =
      { loss := 0, output := [], targets := [] } ∧
    (trainStep ops0 model0 { images := [], targets := [] }).1.item =
      { loss := 0, output := [], targets := [] } :=
  ⟨rfl, rfl, rfl⟩

/-- Claim C4 (amended): neither step inspects the batch dimension; on a batch
whose first dimension is zero both steps still return the
`ClassificationOutput` the evaluator computes — the code defines no
`EmptyBatch` error and has no error channel at all. -/
theorem c4_empty_batch_returns_output {L G : Type}
    (ops : BackendOps Tensor2c Tensor1c L G) (m : Model Tensor3c Tensor2c) :
    (validStep ops m { images := [], targets := [] }).1 =
      { loss := ops.crossEntropyForward (m.forward []) [],
        output := m.forward [], targets := ([] : Tensor1c) } ∧
    (trainStep ops m { images := [], targets := [] }).1.item =
      (validStep ops m { images := [], targets := [] }).1 :=
  ⟨rfl, rfl⟩

/-- Claim C5, counterexample: on a filesystem where the artifact directory
exists and its removal fails with an I/O error (not "not found"), the
spec-worded operation surfaces the error, but `create_artifact_dir` as written
(`.ok()` on both calls) returns normally — the removal failure is swallowed,
and the directory is not even left empty. -/
theorem c5_error_swallowed_counterexample :
    create_artifact_dir_specModel "artifacts" fsRemoveFails =
      Except.error FsError.ioError ∧
    create_artifact_dir "artifacts" fsRemoveFails = fsRemoveFails :=
  ⟨rfl, rfl⟩

/-- Claim C5 (amended): `create_artifact_dir` deletes the directory recursively
and recreates it empty when neither filesystem call fails, but it discards the
result of both calls with `.ok()`: every removal error (not only "not found")
and every creation error is swallowed, and the function returns normally in all
cases. -/
theorem c5_prepare_swallows_all_errors (d : String) (cont : List String) :
    (create_artifact_dir d
      { dirs := [(d, cont)], removeFault := false, createFault := false }).dirs
        = [(d, [])] ∧
    (create_artifact_dir d
      { dirs := [(d, cont)], removeFault := true, createFault := false }).dirs
        = [(d, cont)] ∧
    (create_artifact_dir d
      { dirs := [(d, cont)], removeFault := false, createFault := true }).dirs
        = [] := by
  refine ⟨?_, ?_, ?_⟩ <;>
    simp [create_artifact_dir, remove_dir_all, create_dir_all, List.lookup]

/-- Claim C6: in every run of the `train` entry point, the global random
generator is seeded exactly once, from `config.seed`, and the seeding event
lies in the prefix of the run before any stochastic setup operation (data
loader construction, model parameter initialization). -/
theorem c6_seed_once_before_stochastic {M O : Type} (dir : String)
    (config : TrainingConfig M O) :
    (trainTrace dir config).filter isSeedEv = [TrainEv.seedRng config.seed] ∧
    TrainEv.seedRng config.seed ∈
      (trainTrace dir config).takeWhile (fun e => !(isStochasticSetupEv e)) := by
  constructor
  · simp [trainTrace, isSeedEv]
  · simp [trainTrace, isStochasticSetupEv, List.takeWhile]

/-- Claim C7: `train` records a configuration save to
`<artifact_dir>/config.json` at run start, and loading a saved configuration
document yields exactly the configuration that was saved. -/
theorem c7_config_roundtrip {M O : Type} (c : TrainingConfig M O) (dir : String) :
    TrainingConfig.load (TrainingConfig.save c) = some c ∧
    TrainEv.saveConfig (dir ++ "/config.json") ∈ trainTrace dir c := by
  constructor
  · rfl
  · simp [trainTrace, configPath]

/-- Claim C8: the generated constructor `TrainingConfig::new` takes the model
and optimizer sub-configurations as required arguments and fills the remaining
fields with the defaults num_epochs = 5, batch_size = 64, num_workers = 4,
seed = 42, learning_rate = 1.0e-4. -/
theorem c8_config_defaults {M O : Type} (m : M) (o : O) :
    (TrainingConfig.new m o).num_epochs = 5 ∧
    (TrainingConfig.new m o).batch_size = 64 ∧
    (TrainingConfig.new m o).num_workers = 4 ∧
    (TrainingConfig.new m o).seed = 42 ∧
    (TrainingConfig.new m o).learning_rate = 1 / 10000 ∧
    (TrainingConfig.new m o).model = m ∧
    (TrainingConfig.new m o).optimizer = o :=
  ⟨rfl, rfl, rfl, rfl, rfl, rfl, rfl⟩

/-- Claim C9: for every model state and batch, the `ClassificationOutput`
inside the training step's `TrainOutput` equals the output of the validation
step on the same model state and batch — both delegate to
`forward_classification`. -/
theorem c9_train_valid_same_item {T3 T2 T1 L G : Type}
    (ops : BackendOps T2 T1 L G) (m : Model T3 T2) (batch : MnistBatch T3 T1) :
    (trainStep ops m batch).1.item = (validStep ops m batch).1 :=
  rfl

/-- Claim C10: the validation loader is built on the test dataset with the same
batch size, the same worker count and the same shuffle seed (`config.seed`) as
the training loader; in particular shuffling is enabled on both. -/
theorem c10_loaders_same_options {M O : Type} (config : TrainingConfig M O) :
    (dataLoader_test config).dataset = Dataset.test ∧
    (dataLoader_train config).dataset = Dataset.train ∧
    (dataLoader_test config).batch_size = (dataLoader_train config).batch_size ∧
    (dataLoader_test config).batch_size = some config.batch_size ∧
    (dataLoader_test config).num_workers = (dataLoader_train config).num_workers ∧
    (dataLoader_test config).num_workers = some config.num_workers ∧
    (dataLoader_test config).shuffle_seed = some config.seed ∧
    (dataLoader_train config).shuffle_seed = some config.seed :=
  ⟨rfl, rfl, rfl, rfl, rfl, rfl, rfl, rfl⟩

end BurnTrain
